import Mathlib

/-!
Shallow embedding of `controleur-stepper.c`: a stepper-motor controller
driven by a commutation engine (`commutationStationnement`,
`commutationDeplacement`), a finite state machine (`machine`) over states
`Etat` and events `Evenement`, and a rate divider in the fast-timer
interrupt handler (`interruptionsHP`, modelled by `tickDivider`).

Machine integers (`unsigned char`) are modelled as `Nat` with explicit
`% 256` where the C increment or decrement can wrap.
-/

namespace Stepper

/-- Bridge-switch table for the parked case, `commutateursStationnement` in the source. -/
def commutateursStationnement : List Nat := [1, 4, 2, 8]

/-- Pre-computed cosine amplitude table, `cos` in the source. -/
def cosTable : List Nat := [32, 31, 27, 22, 16, 10, 5, 1, 0, 1, 5, 10, 16, 22, 27, 31]

/-- Bridge-switch table for the moving case, `commutateursDeplacement` in the source. -/
def commutateursDeplacement : List Nat := [5, 6, 10, 9]

/-- The pair of hardware writes a commutation routine performs:
`CCPR3L` (PWM duty) and `PORTA` (bridge-switch pattern). -/
structure Sortie where
  ccpr3l : Nat
  porta : Nat
  deriving DecidableEq, Repr

/-- `commutationStationnement(pas)`: `CCPR3L = 16; PORTA = commutateursStationnement[pas >> 3]`. -/
def commutationStationnement (pas : Nat) : Sortie :=
  { ccpr3l := 16
    porta := commutateursStationnement.getD (pas >>> 3) 0 }

/-- `commutationDeplacement(pas)`:
`CCPR3L = cos[pas & 0x0F]; PORTA = commutateursDeplacement[pas >> 3]`. -/
def commutationDeplacement (pas : Nat) : Sortie :=
  { ccpr3l := cosTable.getD (pas &&& 0x0F) 0
    porta := commutateursDeplacement.getD (pas >>> 3) 0 }

/-- The states of the machine, `enum Etat` in the source. -/
inductive Etat where
  | ARRET
  | MARCHE_AVANT
  | FREIN_AVANT
  | MARCHE_ARRIERE
  | FREIN_ARRIERE
  deriving DecidableEq, Repr, Fintype

/-- The events of the machine, `enum Evenement` in the source. -/
inductive Evenement where
  | AVANCE
  | RECULE
  | ARRETE
  | TICTAC
  deriving DecidableEq, Repr, Fintype

/-- A commutation call performed by the machine during one transition,
recording which routine was invoked and at which position. -/
inductive Appel where
  | stationnement (pas : Nat)
  | deplacement (pas : Nat)
  deriving DecidableEq, Repr

/-- The hardware writes a given commutation call performs. -/
def appliqueAppel : Appel → Sortie
  | .stationnement p => commutationStationnement p
  | .deplacement p => commutationDeplacement p

/-- The mutable state of the machine: the `static` variables `etat` and `pas`. -/
structure Machine where
  etat : Etat
  pas : Nat
  deriving DecidableEq, Repr

/-- `pas++; if (pas > 31) pas = 0;` on an `unsigned char`. -/
def incrementePas (pas : Nat) : Nat :=
  let p := (pas + 1) % 256
  if p > 31 then 0 else p

/-- `pas--; if (pas > 31) pas = 31;` on an `unsigned char` (decrement from 0 wraps to 255). -/
def decrementePas (pas : Nat) : Nat :=
  let p := (pas + 255) % 256
  if p > 31 then 31 else p

/-- One call of `machine(evenement)`: the new (state, position) pair together
with the commutation call performed during the transition, if any. -/
def machine (m : Machine) (evenement : Evenement) : Machine × Option Appel :=
  match m.etat, evenement with
  | .ARRET, .AVANCE => ({ m with etat := .MARCHE_AVANT }, none)
  | .ARRET, .RECULE => ({ m with etat := .MARCHE_ARRIERE }, none)
  | .MARCHE_AVANT, .TICTAC =>
      ({ m with pas := incrementePas m.pas }, some (.deplacement m.pas))
  | .MARCHE_AVANT, .RECULE => ({ m with etat := .FREIN_AVANT }, none)
  | .MARCHE_AVANT, .ARRETE => ({ m with etat := .FREIN_AVANT }, none)
  | .FREIN_AVANT, .TICTAC =>
      if m.pas = 0 ∨ m.pas = 8 ∨ m.pas = 16 ∨ m.pas = 24 then
        ({ m with etat := .ARRET }, some (.stationnement m.pas))
      else
        ({ m with pas := incrementePas m.pas }, some (.deplacement m.pas))
  | .MARCHE_ARRIERE, .TICTAC =>
      ({ m with pas := decrementePas m.pas }, some (.deplacement m.pas))
  | .MARCHE_ARRIERE, .AVANCE => ({ m with etat := .FREIN_ARRIERE }, none)
  | .MARCHE_ARRIERE, .ARRETE => ({ m with etat := .FREIN_ARRIERE }, none)
  | .FREIN_ARRIERE, .TICTAC =>
      if m.pas = 0 ∨ m.pas = 8 ∨ m.pas = 16 ∨ m.pas = 24 then
        ({ m with etat := .ARRET }, some (.stationnement m.pas))
      else
        ({ m with pas := decrementePas m.pas }, some (.deplacement m.pas))
  | _, _ => (m, none)

/-- The initial values of the machine's `static` variables: `etat = ARRET`, `pas = 0`. -/
def init : Machine := { etat := .ARRET, pas := 0 }

/-- Deliver a list of events to the machine, keeping only the final state. -/
def run (m : Machine) (evs : List Evenement) : Machine :=
  evs.foldl (fun s e => (machine s e).1) m

/-- Deliver a list of events to the machine, collecting the commutation
calls performed along the way. -/
def runAppels (m : Machine) : List Evenement → Machine × List Appel
  | [] => (m, [])
  | e :: es =>
      let r := machine m e
      let rest := runAppels r.1 es
      (rest.1, r.2.toList ++ rest.2)

/-- The rate divider inside `interruptionsHP`: from the divider counter `n`,
one fast-timer firing executes `if (n == 0) machine(TICTAC); n++; if (n > 25) n = 0;`.
Returns the new counter and whether a Tick was emitted. -/
def tickDivider (n : Nat) : Nat × Bool :=
  (if n + 1 > 25 then 0 else n + 1, n == 0)

/-- `k` consecutive fast-timer firings from divider counter `n`:
the resulting counter and the number of Ticks emitted. -/
def runDivider : Nat → Nat → Nat × Nat
  | 0, n => (n, 0)
  | k + 1, n =>
      let r := tickDivider n
      let rest := runDivider k r.1
      (rest.1, (if r.2 then 1 else 0) + rest.2)

/-- The (state, event) pairs that carry an action or a state change in the
transition table; every other pair falls through the C switches untouched. -/
def estTransition : Etat → Evenement → Bool
  | .ARRET, .AVANCE => true
  | .ARRET, .RECULE => true
  | .MARCHE_AVANT, .TICTAC => true
  | .MARCHE_AVANT, .RECULE => true
  | .MARCHE_AVANT, .ARRETE => true
  | .FREIN_AVANT, .TICTAC => true
  | .MARCHE_ARRIERE, .TICTAC => true
  | .MARCHE_ARRIERE, .AVANCE => true
  | .MARCHE_ARRIERE, .ARRETE => true
  | .FREIN_ARRIERE, .TICTAC => true
  | _, _ => false

/-- The machine's reachability invariant: the position stays below 32, and in
the stopped state the position is a multiple of 8. -/
abbrev Inv (m : Machine) : Prop :=
  m.pas < 32 ∧ (m.etat = .ARRET → m.pas % 8 = 0)

lemma inv_step : ∀ (et : Etat) (ev : Evenement), ∀ p < 32,
    (et = .ARRET → p % 8 = 0) → Inv (machine ⟨et, p⟩ ev).1 := by decide

lemma run_cons (m : Machine) (e : Evenement) (es : List Evenement) :
    run m (e :: es) = run (machine m e).1 es := rfl

lemma run_inv : ∀ (evs : List Evenement) (m : Machine), Inv m → Inv (run m evs) := by
  intro evs
  induction evs with
  | nil => exact fun m h => h
  | cons e es ih =>
      intro m h
      rw [run_cons]
      exact ih _ (inv_step m.etat e m.pas h.1 h.2)

/-- C1: in `MARCHE_AVANT` (RunningForward), a `RECULE` (Backward) event moves
the machine to `FREIN_AVANT` (BrakingForward) at once with the position
unchanged and no commutation; in `FREIN_AVANT`, a Tick at a position outside
{0,8,16,24} applies the moving commutation at the current position and
increments the position modulo 32, staying in `FREIN_AVANT`; a Tick at a
position in {0,8,16,24} applies the parked commutation, leaves the position
unchanged, and transitions to `ARRET` (Stopped). -/
theorem brakingForward_trajectory (p : Nat) (hp : p < 32) :
    machine ⟨.MARCHE_AVANT, p⟩ .RECULE = (⟨.FREIN_AVANT, p⟩, none) ∧
    (¬(p = 0 ∨ p = 8 ∨ p = 16 ∨ p = 24) →
      machine ⟨.FREIN_AVANT, p⟩ .TICTAC =
        (⟨.FREIN_AVANT, (p + 1) % 32⟩, some (.deplacement p))) ∧
    ((p = 0 ∨ p = 8 ∨ p = 16 ∨ p = 24) →
      machine ⟨.FREIN_AVANT, p⟩ .TICTAC = (⟨.ARRET, p⟩, some (.stationnement p))) := by
  revert p
  decide

/-- Witness for C1 at position 5. -/
theorem brakingForward_trajectory_at_5 :
    machine ⟨.MARCHE_AVANT, 5⟩ .RECULE = (⟨.FREIN_AVANT, 5⟩, none) :=
  (brakingForward_trajectory 5 (by decide)).1

/-- C2: starting from the initial state (`ARRET`, position 0), along any event
sequence, whenever the machine is stopped its position is in {0,8,16,24}. -/
theorem stops_only_on_aligned_step (evs : List Evenement)
    (h : (run init evs).etat = .ARRET) :
    (run init evs).pas = 0 ∨ (run init evs).pas = 8 ∨
    (run init evs).pas = 16 ∨ (run init evs).pas = 24 := by
  have hi : Inv (run init evs) := run_inv evs init (by decide)
  have h8 := hi.2 h
  have h32 := hi.1
  omega

/-- Witness for C2 on the empty event sequence. -/
theorem stops_only_on_aligned_step_nil :
    (run init []).pas = 0 ∨ (run init []).pas = 8 ∨
    (run init []).pas = 16 ∨ (run init []).pas = 24 :=
  stops_only_on_aligned_step [] rfl

/-- Counterexample to C3 as stated: from divider counter 0, the very first
fast-timer firing already emits a Tick (the claim says firings 1 through 25
emit none), and the 26th firing, from counter 25, emits none (the claim says
it emits one). -/
theorem divider_ticks_on_first_firing :
    (runDivider 1 0).2 = 1 ∧ (tickDivider 25).2 = false := by decide

/-- C3 amended: in a group of 26 consecutive fast-timer firings starting from
divider counter 0, the first firing emits exactly one Tick, firings 2 through
26 emit none, the whole group emits exactly one Tick, and the counter is back
to 0 afterwards. -/
theorem divider_group_of_26 :
    runDivider 26 0 = (0, 1) ∧
    (tickDivider 0).2 = true ∧
    (List.range 25).map (fun k => (tickDivider (runDivider (k + 1) 0).1).2) =
      List.replicate 25 false ∧
    (List.range 26).map (fun k => (runDivider (k + 1) 0).2) =
      List.replicate 26 1 := by decide

/-- C4: position arithmetic is modulo 32 in both directions: a Tick in
`MARCHE_AVANT` at 31 yields 0, a Tick in `MARCHE_ARRIERE` at 0 yields 31,
and for every position below 32 the forward successor is `(p + 1) % 32`
and the backward successor is `(p - 1) % 32` (as integers). -/
theorem position_modulo_32 (p : Nat) (hp : p < 32) :
    (machine ⟨.MARCHE_AVANT, 31⟩ .TICTAC).1.pas = 0 ∧
    (machine ⟨.MARCHE_ARRIERE, 0⟩ .TICTAC).1.pas = 31 ∧
    (machine ⟨.MARCHE_AVANT, p⟩ .TICTAC).1.pas = (p + 1) % 32 ∧
    ((machine ⟨.MARCHE_ARRIERE, p⟩ .TICTAC).1.pas : Int) = ((p : Int) - 1) % 32 := by
  revert p
  decide

/-- Witness for C4 at position 0. -/
theorem position_modulo_32_at_0 :
    ((machine ⟨.MARCHE_ARRIERE, 0⟩ .TICTAC).1.pas : Int) = (((0 : Nat) : Int) - 1) % 32 :=
  (position_modulo_32 0 (by decide)).2.2.2

/-- C5: for every position below 32, the parked commutation writes the fixed
50%-duty amplitude 16 and the parked-table pattern at index `p / 8`
(= `p >> 3`), and the moving commutation writes the cosine-table amplitude at
index `p % 16` (= `p & 0x0F`) and the moving-table pattern at index `p / 8`. -/
theorem commutation_table_selection (p : Nat) (hp : p < 32) :
    commutationStationnement p =
      { ccpr3l := 16, porta := commutateursStationnement.getD (p / 8) 0 } ∧
    commutationDeplacement p =
      { ccpr3l := cosTable.getD (p % 16) 0,
        porta := commutateursDeplacement.getD (p / 8) 0 } := by
  revert p
  decide

/-- Witness for C5 at position 13. -/
theorem commutation_table_selection_at_13 :
    commutationStationnement 13 =
      { ccpr3l := 16, porta := commutateursStationnement.getD (13 / 8) 0 } :=
  (commutation_table_selection 13 (by decide)).1

/-- C6: from the initial state (`ARRET`, position 0), one `AVANCE` event
followed by 40 Ticks leaves the machine in `MARCHE_AVANT` at position 8
(= 40 mod 32), with exactly 40 moving-commutation calls, the k-th made at the
pre-increment position `k % 32`. -/
theorem forward_forty_ticks :
    runAppels init (.AVANCE :: List.replicate 40 .TICTAC) =
      (⟨.MARCHE_AVANT, 8⟩, (List.range 40).map fun k => .deplacement (k % 32)) := by
  set_option maxRecDepth 4000 in decide

/-- C7: every (state, event) pair without a listed transition leaves state and
position unchanged and produces no commutation; in particular any number of
`ARRETE` (Stop) events in `ARRET` changes nothing, and a Tick in `ARRET`
changes nothing. -/
theorem unlisted_pairs_noop (et : Etat) (ev : Evenement) (p n : Nat)
    (h : estTransition et ev = false) :
    machine ⟨et, p⟩ ev = (⟨et, p⟩, none) ∧
    run ⟨.ARRET, p⟩ (List.replicate n .ARRETE) = ⟨.ARRET, p⟩ ∧
    machine ⟨.ARRET, p⟩ .TICTAC = (⟨.ARRET, p⟩, none) := by
  refine ⟨?_, ?_, rfl⟩
  · cases et <;> cases ev <;> first | rfl | simp [estTransition] at h
  · induction n with
    | zero => rfl
    | succ k ih =>
        rw [List.replicate_succ]
        exact ih

/-- Witness for C7: a Forward event in `FREIN_AVANT` is a no-op. -/
theorem unlisted_pairs_noop_example :
    machine ⟨.FREIN_AVANT, 3⟩ .AVANCE = (⟨.FREIN_AVANT, 3⟩, none) :=
  (unlisted_pairs_noop .FREIN_AVANT .AVANCE 3 2 (by decide)).1

/-- C8: from `FREIN_AVANT` or `FREIN_ARRIERE` at any position below 32, at
most 8 consecutive Ticks bring the machine to `ARRET`. -/
theorem braking_stops_within_8_ticks (p : Nat) (hp : p < 32) :
    (∃ k, k ≤ 8 ∧ (run ⟨.FREIN_AVANT, p⟩ (List.replicate k .TICTAC)).etat = .ARRET) ∧
    (∃ k, k ≤ 8 ∧ (run ⟨.FREIN_ARRIERE, p⟩ (List.replicate k .TICTAC)).etat = .ARRET) := by
  revert p
  decide

/-- Witness for C8 at position 3. -/
theorem braking_stops_within_8_ticks_at_3 :
    ∃ k, k ≤ 8 ∧ (run ⟨.FREIN_AVANT, 3⟩ (List.replicate k .TICTAC)).etat = .ARRET :=
  (braking_stops_within_8_ticks 3 (by decide)).1

/-- C9: in every state, an event other than Tick never modifies the position
and never produces a commutation call. -/
theorem non_tick_frame (et : Etat) (ev : Evenement) (p : Nat) (h : ev ≠ .TICTAC) :
    (machine ⟨et, p⟩ ev).1.pas = p ∧ (machine ⟨et, p⟩ ev).2 = none := by
  cases et <;> cases ev <;> first | exact absurd rfl h | exact ⟨rfl, rfl⟩

/-- Witness for C9: a Forward event in `MARCHE_AVANT`. -/
theorem non_tick_frame_example :
    (machine ⟨.MARCHE_AVANT, 7⟩ .AVANCE).1.pas = 7 :=
  (non_tick_frame .MARCHE_AVANT .AVANCE 7 (by decide)).1

/-- C10: for every position below 32, the indices the commutation routines
compute are in bounds for their tables: `p >> 3` is below the length of both
4-entry switch tables, and `p & 0x0F` is below the length of the 16-entry
cosine table. -/
theorem commutation_indices_in_bounds (p : Nat) (hp : p < 32) :
    p >>> 3 < commutateursStationnement.length ∧
    p >>> 3 < commutateursDeplacement.length ∧
    p &&& 0x0F < cosTable.length := by
  revert p
  decide

/-- Witness for C10 at position 31. -/
theorem commutation_indices_in_bounds_at_31 :
    31 >>> 3 < commutateursStationnement.length ∧
    31 >>> 3 < commutateursDeplacement.length ∧
    31 &&& 0x0F < cosTable.length :=
  commutation_indices_in_bounds 31 (by decide)

end Stepper
